import Mathlib

/-!
Verification of the escrow-initialization core (Rust sources
`src/state.rs` and `src/processor.rs`) via a shallow embedding.

Bytes are modelled as `Nat` (with explicit `< 256` bounds where the Rust
`u8` type matters), 32-byte public keys as byte lists, and the Solana
`u64` amount as a `Nat` with an explicit `< 2 ^ 64` bound.
-/

deriving instance DecidableEq for Except

namespace SolEscrow

/-- Little-endian byte decoding, mirroring `u64::from_le_bytes`:
the byte at index `i` contributes `b * 256 ^ i`. -/
def fromLeBytes (bs : List Nat) : Nat :=
  bs.foldr (fun b acc => b + 256 * acc) 0

/-- Little-endian encoding of a natural number into `k` bytes, mirroring
`u64::to_le_bytes` when `k = 8` and the input is below `2 ^ 64`. -/
def toLeBytes : Nat → Nat → List Nat
  | 0, _ => []
  | k + 1, n => n % 256 :: toLeBytes k (n / 256)

theorem toLeBytes_length (k n : Nat) : (toLeBytes k n).length = k := by
  induction k generalizing n with
  | zero => rfl
  | succ k ih => simp [toLeBytes, ih]

theorem fromLeBytes_toLeBytes (k n : Nat) (h : n < 256 ^ k) :
    fromLeBytes (toLeBytes k n) = n := by
  induction k generalizing n with
  | zero =>
    simp [toLeBytes, fromLeBytes]
    omega
  | succ k ih =>
    have hdiv : n / 256 < 256 ^ k := by
      rw [Nat.div_lt_iff_lt_mul (by norm_num)]
      calc n < 256 ^ (k + 1) := h
        _ = 256 ^ k * 256 := by ring
    simp only [toLeBytes, fromLeBytes, List.foldr_cons]
    have : (toLeBytes k (n / 256)).foldr (fun b acc => b + 256 * acc) 0 = n / 256 :=
      ih (n / 256) hdiv
    rw [this]
    omega

/-- Solana public key: 32 bytes. Modelled as a byte list; the fixed size of
the Rust `[u8; 32]` type becomes the validity predicate below. -/
abbrev Pubkey := List Nat

/-- Validity of a public key model: exactly 32 bytes, each a `u8`. -/
def Pubkey.Valid (p : Pubkey) : Prop :=
  p.length = 32 ∧ ∀ b ∈ p, b < 256

instance (p : Pubkey) : Decidable p.Valid := by
  unfold Pubkey.Valid
  infer_instance

/-- Error type covering the `ProgramError` variants this core produces,
plus the program-specific `EscrowError::NotRentExempt` (converted into a
program error by `into()` in the source) and an `External` constructor for
failures of the external token-program invocation. -/
inductive ProgErr where
  | NotEnoughAccountKeys
  | MissingRequiredSignature
  | IncorrectProgramId
  | InvalidAccountData
  | NotRentExempt
  | AccountAlreadyInitialized
  | External (code : Nat)
  deriving DecidableEq, Repr

/-- The Escrow record of `src/state.rs`, field for field. -/
structure Escrow where
  is_initialized : Bool
  initializer_pubkey : Pubkey
  temp_token_account_pubkey : Pubkey
  initializer_token_to_receive_account_pubkey : Pubkey
  expected_amount : Nat
  deriving DecidableEq, Repr

/-- Validity of an Escrow record model: each key is 32 bytes of `u8`, the
amount fits in a `u64` (all guaranteed by the Rust types). -/
def Escrow.Valid (e : Escrow) : Prop :=
  e.initializer_pubkey.Valid ∧ e.temp_token_account_pubkey.Valid ∧
    e.initializer_token_to_receive_account_pubkey.Valid ∧ e.expected_amount < 2 ^ 64

instance (e : Escrow) : Decidable e.Valid := by
  unfold Escrow.Valid
  infer_instance

/-- Mirrors `Escrow::LEN = 105` from `src/state.rs`. -/
def Escrow.LEN : Nat := 105

/-- Mirrors `Escrow::unpack_from_slice` from `src/state.rs`: split the
first 105 bytes into the five fixed-width fields (`array_refs![src, 1, 32,
32, 32, 8]`), then match the one-byte flag: `[0]` gives false, `[1]` gives
true, anything else is `ProgramError::InvalidAccountData`. The Rust
`array_ref!` requires at least 105 input bytes; the only caller,
`unpack_unchecked`, guarantees exactly 105. -/
def Escrow.unpack_from_slice (src : List Nat) : Except ProgErr Escrow :=
  let flag := src.take 1
  let initializer_pubkey := (src.drop 1).take 32
  let temp_token_account_pubkey := (src.drop 33).take 32
  let initializer_token_to_receive_account_pubkey := (src.drop 65).take 32
  let expected_amount_bytes := (src.drop 97).take 8
  if flag = [0] then
    .ok ⟨false, initializer_pubkey, temp_token_account_pubkey,
      initializer_token_to_receive_account_pubkey, fromLeBytes expected_amount_bytes⟩
  else if flag = [1] then
    .ok ⟨true, initializer_pubkey, temp_token_account_pubkey,
      initializer_token_to_receive_account_pubkey, fromLeBytes expected_amount_bytes⟩
  else
    .error .InvalidAccountData

/-- Mirrors `Escrow::pack_into_slice` from `src/state.rs`: the record as 105
bytes, boolean byte first, then the three 32-byte keys, then the amount as
8 little-endian bytes. The Rust version overwrites a 105-byte destination
in place; since every byte is written, the result is the produced list. -/
def Escrow.pack_into_slice (e : Escrow) : List Nat :=
  (if e.is_initialized then [1] else [0]) ++
    (e.initializer_pubkey ++
      (e.temp_token_account_pubkey ++
        (e.initializer_token_to_receive_account_pubkey ++
          toLeBytes 8 e.expected_amount)))

/-- Provided method of the `solana_program::program_pack::Pack` trait, as
called by the processor: reject any input whose length is not `LEN`, then
delegate to the repository's `unpack_from_slice`. -/
def Escrow.unpack_unchecked (src : List Nat) : Except ProgErr Escrow :=
  if src.length ≠ Escrow.LEN then .error .InvalidAccountData
  else Escrow.unpack_from_slice src

/-- Provided method of the `solana_program::program_pack::Pack` trait, as
called by the processor: reject a destination whose length is not `LEN`,
then overwrite it via the repository's `pack_into_slice`. -/
def Escrow.pack (e : Escrow) (dst : List Nat) : Except ProgErr (List Nat) :=
  if dst.length ≠ Escrow.LEN then .error .InvalidAccountData
  else .ok e.pack_into_slice

theorem Escrow.pack_into_slice_length (e : Escrow) (h : e.Valid) :
    e.pack_into_slice.length = 105 := by
  obtain ⟨⟨h1, _⟩, ⟨h2, _⟩, ⟨h3, _⟩, _⟩ := h
  cases hb : e.is_initialized <;>
    simp [Escrow.pack_into_slice, hb, h1, h2, h3, toLeBytes_length]

theorem take_len_append (a b : List Nat) (n : Nat) (h : a.length = n) :
    (a ++ b).take n = a := by
  subst h
  induction a with
  | nil => rfl
  | cons x xs ih => simp [List.take_succ_cons, ih]

theorem drop_len_append (a b : List Nat) (n : Nat) (h : a.length = n) :
    (a ++ b).drop n = b := by
  subst h
  induction a with
  | nil => rfl
  | cons x xs ih => simp only [List.length_cons, List.cons_append, List.drop_succ_cons]; exact ih

/-- Decomposition helper: decoding a byte list that is structured as one
flag byte followed by three 32-byte blocks and an 8-byte block recovers
each block. -/
theorem Escrow.unpack_from_slice_append (b : Nat) (p1 p2 p3 a : List Nat)
    (h1 : p1.length = 32) (h2 : p2.length = 32) (h3 : p3.length = 32)
    (ha : a.length = 8) :
    Escrow.unpack_from_slice ([b] ++ (p1 ++ (p2 ++ (p3 ++ a)))) =
      if b = 0 then .ok ⟨false, p1, p2, p3, fromLeBytes a⟩
      else if b = 1 then .ok ⟨true, p1, p2, p3, fromLeBytes a⟩
      else .error .InvalidAccountData := by
  set src := [b] ++ (p1 ++ (p2 ++ (p3 ++ a))) with hsrc
  have htake1 : src.take 1 = [b] := take_len_append _ _ 1 rfl
  have hd1 : src.drop 1 = p1 ++ (p2 ++ (p3 ++ a)) := drop_len_append _ _ 1 rfl
  have hd33 : src.drop 33 = p2 ++ (p3 ++ a) := by
    have h33 : src.drop 33 = (src.drop 1).drop 32 := by rw [List.drop_drop]
    rw [h33, hd1, drop_len_append _ _ 32 h1]
  have hd65 : src.drop 65 = p3 ++ a := by
    have h65 : src.drop 65 = (src.drop 33).drop 32 := by rw [List.drop_drop]
    rw [h65, hd33, drop_len_append _ _ 32 h2]
  have hd97 : src.drop 97 = a := by
    have h97 : src.drop 97 = (src.drop 65).drop 32 := by rw [List.drop_drop]
    rw [h97, hd65, drop_len_append _ _ 32 h3]
  have ht1 : (src.drop 1).take 32 = p1 := by rw [hd1]; exact take_len_append _ _ 32 h1
  have ht2 : (src.drop 33).take 32 = p2 := by rw [hd33]; exact take_len_append _ _ 32 h2
  have ht3 : (src.drop 65).take 32 = p3 := by rw [hd65]; exact take_len_append _ _ 32 h3
  have ht4 : (src.drop 97).take 8 = a := by
    rw [hd97]; exact List.take_of_length_le (by omega)
  unfold Escrow.unpack_from_slice
  simp only [htake1, ht1, ht2, ht3, ht4]
  by_cases hb0 : b = 0
  · simp [hb0]
  · by_cases hb1 : b = 1 <;> simp [hb0, hb1]

/-- Round-trip helper: decoding the 105-byte encoding of a valid record
recovers the record. -/
theorem Escrow.unpack_pack (e : Escrow) (h : e.Valid) :
    Escrow.unpack_unchecked e.pack_into_slice = .ok e := by
  have hlen : e.pack_into_slice.length = 105 := e.pack_into_slice_length h
  obtain ⟨binit, p1, p2, p3, amt⟩ := e
  obtain ⟨⟨h1, h1b⟩, ⟨h2, h2b⟩, ⟨h3, h3b⟩, h4⟩ := h
  have hamt : fromLeBytes (toLeBytes 8 amt) = amt :=
    fromLeBytes_toLeBytes 8 amt (by norm_num at h4 ⊢; omega)
  unfold Escrow.unpack_unchecked
  rw [if_neg (by simp [hlen, Escrow.LEN])]
  have hps : (Escrow.mk binit p1 p2 p3 amt).pack_into_slice =
      [if binit then 1 else 0] ++ (p1 ++ (p2 ++ (p3 ++ toLeBytes 8 amt))) := by
    cases binit <;> simp [Escrow.pack_into_slice]
  rw [hps, Escrow.unpack_from_slice_append _ _ _ _ _ h1 h2 h3 (toLeBytes_length 8 amt)]
  cases binit <;> simp [hamt]

/-- Model of `solana_program::account_info::AccountInfo`, keeping the
fields `process_init_escrow` reads: key, signer flag, owner, lamports and
account data. -/
structure AccountInfo where
  key : Pubkey
  is_signer : Bool
  owner : Pubkey
  lamports : Nat
  data : List Nat
  deriving DecidableEq, Repr

namespace Processor

/-- Mirrors `Processor::process_init_escrow` from `src/processor.rs`,
statement by statement. Accounts are consumed in order via
`next_account_info`, which yields `ProgramError::NotEnoughAccountKeys`
when the list is exhausted. External collaborators are passed as
parameters, as the spec treats them: `spl_token_id` is the external
asset-custody program's identity (`spl_token::id()`); `rentIsExempt` is
the rent-exemption oracle obtained from the rent sysvar account
(`Rent::from_account_info` + `Rent::is_exempt`); `invokeRes` is the
combined outcome of building the `set_authority` instruction and
`invoke`-ing the external token program (the PDA derivation
`find_program_address` is pure and only feeds that external call).
The returned pair is the result together with the post-state of the
account list; only the escrow account's data (index 3) is ever written. -/
def process_init_escrow (spl_token_id : Pubkey) (rentIsExempt : Nat → Nat → Bool)
    (invokeRes : Except ProgErr Unit) (accounts : List AccountInfo) (amount : Nat) :
    Except ProgErr Unit × List AccountInfo :=
  match accounts[0]? with
  | none => (.error .NotEnoughAccountKeys, accounts)
  | some initializer =>
    if initializer.is_signer = false then (.error .MissingRequiredSignature, accounts) else
    match accounts[1]? with
    | none => (.error .NotEnoughAccountKeys, accounts)
    | some temp_token_account =>
      match accounts[2]? with
      | none => (.error .NotEnoughAccountKeys, accounts)
      | some token_to_receive_account =>
        if token_to_receive_account.owner ≠ spl_token_id then
          (.error .IncorrectProgramId, accounts) else
        match accounts[3]? with
        | none => (.error .NotEnoughAccountKeys, accounts)
        | some escrow_account =>
          match accounts[4]? with
          | none => (.error .NotEnoughAccountKeys, accounts)
          | some _rent_sysvar_account =>
            if rentIsExempt escrow_account.lamports escrow_account.data.length = false then
              (.error .NotRentExempt, accounts) else
            match Escrow.unpack_unchecked escrow_account.data with
            | .error e => (.error e, accounts)
            | .ok escrow_info =>
              if escrow_info.is_initialized then
                (.error .AccountAlreadyInitialized, accounts) else
              match Escrow.pack
                  { is_initialized := true
                    initializer_pubkey := initializer.key
                    temp_token_account_pubkey := temp_token_account.key
                    initializer_token_to_receive_account_pubkey := token_to_receive_account.key
                    expected_amount := amount }
                  escrow_account.data with
              | .error e => (.error e, accounts)
              | .ok newData =>
                let accounts1 := accounts.set 3 { escrow_account with data := newData }
                match accounts[5]? with
                | none => (.error .NotEnoughAccountKeys, accounts1)
                | some _token_program =>
                  match invokeRes with
                  | .error e => (.error e, accounts1)
                  | .ok _ => (.ok (), accounts1)

end Processor

theorem Escrow.unpack_unchecked_ok_length {src : List Nat} {r : Escrow}
    (h : Escrow.unpack_unchecked src = .ok r) : src.length = 105 := by
  unfold Escrow.unpack_unchecked Escrow.LEN at h
  by_cases hl : src.length = 105
  · exact hl
  · rw [if_pos hl] at h
    exact absurd h (by simp)

/-! Concrete sample data used by the witness theorems. -/

def k0 : Pubkey := List.replicate 32 1
def k1 : Pubkey := List.replicate 32 2
def k2 : Pubkey := List.replicate 32 3
def k3 : Pubkey := List.replicate 32 4
def k4 : Pubkey := List.replicate 32 5
def splKey : Pubkey := List.replicate 32 6
def otherKey : Pubkey := List.replicate 32 9
def zeros105 : List Nat := List.replicate 105 0
def ones105 : List Nat := 1 :: List.replicate 104 0
def rentAlways : Nat → Nat → Bool := fun _ _ => true

def sampleAccounts : List AccountInfo :=
  [⟨k0, true, k0, 10, []⟩,
   ⟨k1, false, splKey, 20, []⟩,
   ⟨k2, false, splKey, 0, []⟩,
   ⟨k3, false, k0, 1000, zeros105⟩,
   ⟨k4, false, k0, 1, []⟩,
   ⟨splKey, false, k0, 1, []⟩]

theorem bool_true_of_not_false {b : Bool} (h : ¬ b = false) : b = true := by
  cases b with
  | false => exact absurd rfl h
  | true => rfl

theorem exists_tail_of_five {accounts : List AccountInfo} {a0 a1 a2 a3 a4 : AccountInfo}
    (h0 : accounts[0]? = some a0) (h1 : accounts[1]? = some a1)
    (h2 : accounts[2]? = some a2) (h3 : accounts[3]? = some a3)
    (h4 : accounts[4]? = some a4) :
    ∃ rest, accounts = a0 :: a1 :: a2 :: a3 :: a4 :: rest := by
  rcases accounts with _ | ⟨x0, accounts⟩
  · simp at h0
  rcases accounts with _ | ⟨x1, accounts⟩
  · simp at h1
  rcases accounts with _ | ⟨x2, accounts⟩
  · simp at h2
  rcases accounts with _ | ⟨x3, accounts⟩
  · simp at h3
  rcases accounts with _ | ⟨x4, rest⟩
  · simp at h4
  simp only [List.getElem?_cons_zero, List.getElem?_cons_succ, Option.some.injEq]
    at h0 h1 h2 h3 h4
  exact ⟨rest, by rw [h0, h1, h2, h3, h4]⟩

/-- Characterization of the success path of `process_init_escrow`: once
all four validations pass, the escrow account's data is overwritten with
the encoded new record, and the final outcome depends only on the
presence of the sixth account and the external invocation's result. -/
theorem Processor.process_success_path
    (spl : Pubkey) (rent : Nat → Nat → Bool) (inv : Except ProgErr Unit)
    (a0 a1 a2 a3 a4 : AccountInfo) (rest : List AccountInfo) (amount : Nat) (r : Escrow)
    (hs : a0.is_signer = true) (ho : a2.owner = spl)
    (hr : rent a3.lamports a3.data.length = true)
    (hu : Escrow.unpack_unchecked a3.data = .ok r)
    (hi : r.is_initialized = false) :
    Processor.process_init_escrow spl rent inv (a0 :: a1 :: a2 :: a3 :: a4 :: rest) amount =
      ((match rest[0]?, inv with
        | none, _ => .error .NotEnoughAccountKeys
        | some _, .error e => .error e
        | some _, .ok _ => .ok ()),
       a0 :: a1 :: a2 ::
         { a3 with data := (Escrow.mk true a0.key a1.key a2.key amount).pack_into_slice } ::
         a4 :: rest) := by
  have hlen : a3.data.length = 105 := Escrow.unpack_unchecked_ok_length hu
  have hr' : rent a3.lamports 105 = true := by rw [← hlen]; exact hr
  unfold Processor.process_init_escrow
  cases hrest : rest[0]? with
  | none =>
    cases inv <;>
      simp [hs, ho, hr, hr', hu, hi, hrest, Escrow.pack, Escrow.LEN, hlen]
  | some a5 =>
    cases inv <;>
      simp [hs, ho, hr, hr', hu, hi, hrest, Escrow.pack, Escrow.LEN, hlen]

/-- C6: for every valid Escrow Record `r`, decoding the encoding of `r`
yields `r` again: `decode (encode r) = r`. -/
theorem decode_encode_roundtrip (r : Escrow) (h : r.Valid) :
    Escrow.unpack_unchecked r.pack_into_slice = .ok r :=
  Escrow.unpack_pack r h

theorem decode_encode_roundtrip_witness :
    (Escrow.mk true k0 k1 k2 1000000).Valid ∧
      Escrow.unpack_unchecked (Escrow.mk true k0 k1 k2 1000000).pack_into_slice =
        .ok (Escrow.mk true k0 k1 k2 1000000) :=
  ⟨by decide, decode_encode_roundtrip _ (by decide)⟩

/-- C7: for every byte input whose length is not exactly 105, decode fails
with a decode error rather than returning a record. -/
theorem decode_rejects_wrong_size (bs : List Nat) (h : bs.length ≠ 105) :
    Escrow.unpack_unchecked bs = .error .InvalidAccountData := by
  unfold Escrow.unpack_unchecked Escrow.LEN
  rw [if_pos h]

theorem decode_rejects_wrong_size_witness :
    ([0, 1, 2] : List Nat).length ≠ 105 ∧
      Escrow.unpack_unchecked [0, 1, 2] = .error .InvalidAccountData :=
  ⟨by decide, decode_rejects_wrong_size [0, 1, 2] (by decide)⟩

/-- C8: for every 105-byte input whose first byte is neither 0 nor 1,
decode fails with an encoding error; for every 105-byte input whose first
byte is 0 or 1, decode succeeds regardless of the remaining 104 bytes. -/
theorem decode_first_byte_domain (bs : List Nat) (b0 : Nat)
    (hlen : bs.length = 105) (h0 : bs[0]? = some b0) :
    (b0 ≠ 0 → b0 ≠ 1 → Escrow.unpack_unchecked bs = .error .InvalidAccountData) ∧
      ((b0 = 0 ∨ b0 = 1) → ∃ r, Escrow.unpack_unchecked bs = .ok r) := by
  obtain ⟨t, rfl⟩ : ∃ t, bs = b0 :: t := by
    cases bs with
    | nil => simp at h0
    | cons x t =>
      simp only [List.getElem?_cons_zero, Option.some.injEq] at h0
      exact ⟨t, by rw [h0]⟩
  have hg : Escrow.unpack_unchecked (b0 :: t) = Escrow.unpack_from_slice (b0 :: t) := by
    unfold Escrow.unpack_unchecked Escrow.LEN
    rw [if_neg (by omega)]
  constructor
  · intro hn0 hn1
    rw [hg]
    simp [Escrow.unpack_from_slice, hn0, hn1]
  · rintro (h | h) <;> subst h
    · exact ⟨⟨false, t.take 32, (t.drop 32).take 32, (t.drop 64).take 32,
        fromLeBytes ((t.drop 96).take 8)⟩, by rw [hg]; simp [Escrow.unpack_from_slice]⟩
    · exact ⟨⟨true, t.take 32, (t.drop 32).take 32, (t.drop 64).take 32,
        fromLeBytes ((t.drop 96).take 8)⟩, by rw [hg]; simp [Escrow.unpack_from_slice]⟩

theorem decode_first_byte_domain_witness :
    ((7 :: List.replicate 104 (0 : Nat)).length = 105 ∧
        (7 :: List.replicate 104 (0 : Nat))[0]? = some 7) ∧
      ((7 ≠ 0 → 7 ≠ 1 →
          Escrow.unpack_unchecked (7 :: List.replicate 104 (0 : Nat)) =
            .error .InvalidAccountData) ∧
        ((7 = 0 ∨ 7 = 1) →
          ∃ r, Escrow.unpack_unchecked (7 :: List.replicate 104 (0 : Nat)) = .ok r)) :=
  ⟨⟨by decide, by decide⟩,
    decode_first_byte_domain (7 :: List.replicate 104 (0 : Nat)) 7 (by decide) (by decide)⟩

/-- C1: for every input where all four validations pass, the processor
writes to the escrow storage account (index 3) the encoded record with
`is_initialized = true`, the initializer's key, the custody (temp token)
account's key, the receiving account's key, and the instruction amount;
those bytes decode to exactly that record. -/
theorem init_writes_initialized_record
    (spl : Pubkey) (rent : Nat → Nat → Bool) (inv : Except ProgErr Unit)
    (accounts : List AccountInfo) (amount : Nat)
    (a0 a1 a2 a3 a4 : AccountInfo) (r : Escrow)
    (h0 : accounts[0]? = some a0) (h1 : accounts[1]? = some a1)
    (h2 : accounts[2]? = some a2) (h3 : accounts[3]? = some a3)
    (h4 : accounts[4]? = some a4)
    (hs : a0.is_signer = true) (ho : a2.owner = spl)
    (hr : rent a3.lamports a3.data.length = true)
    (hu : Escrow.unpack_unchecked a3.data = .ok r) (hi : r.is_initialized = false)
    (hk0 : a0.key.Valid) (hk1 : a1.key.Valid) (hk2 : a2.key.Valid)
    (ha : amount < 2 ^ 64) :
    (Processor.process_init_escrow spl rent inv accounts amount).2 =
        accounts.set 3
          { a3 with data := (Escrow.mk true a0.key a1.key a2.key amount).pack_into_slice } ∧
      Escrow.unpack_unchecked (Escrow.mk true a0.key a1.key a2.key amount).pack_into_slice =
        .ok (Escrow.mk true a0.key a1.key a2.key amount) := by
  obtain ⟨rest, rfl⟩ := exists_tail_of_five h0 h1 h2 h3 h4
  constructor
  · rw [Processor.process_success_path spl rent inv a0 a1 a2 a3 a4 rest amount r
      hs ho hr hu hi]
    simp
  · exact Escrow.unpack_pack _ ⟨hk0, hk1, hk2, ha⟩

theorem init_writes_initialized_record_witness :
    (Processor.process_init_escrow splKey rentAlways (.ok ()) sampleAccounts 1000000).2 =
        sampleAccounts.set 3
          { AccountInfo.mk k3 false k0 1000 zeros105 with
              data := (Escrow.mk true k0 k1 k2 1000000).pack_into_slice } ∧
      Escrow.unpack_unchecked (Escrow.mk true k0 k1 k2 1000000).pack_into_slice =
        .ok (Escrow.mk true k0 k1 k2 1000000) :=
  init_writes_initialized_record splKey rentAlways (.ok ()) sampleAccounts 1000000
    (AccountInfo.mk k0 true k0 10 []) (AccountInfo.mk k1 false splKey 20 [])
    (AccountInfo.mk k2 false splKey 0 []) (AccountInfo.mk k3 false k0 1000 zeros105)
    (AccountInfo.mk k4 false k0 1 [])
    (Escrow.mk false (List.replicate 32 0) (List.replicate 32 0) (List.replicate 32 0) 0)
    rfl rfl rfl rfl rfl rfl rfl rfl (by decide) rfl
    (by decide) (by decide) (by decide) (by decide)

/-- C9: for every input whose first supplied account is not marked as a
transaction signer, the transition fails with `MissingRequiredSignature`
and the account list (in particular the escrow storage account's content)
is unchanged. -/
theorem missing_signer_rejected
    (spl : Pubkey) (rent : Nat → Nat → Bool) (inv : Except ProgErr Unit)
    (accounts : List AccountInfo) (amount : Nat) (a0 : AccountInfo)
    (h0 : accounts[0]? = some a0) (hs : a0.is_signer = false) :
    Processor.process_init_escrow spl rent inv accounts amount =
      (.error .MissingRequiredSignature, accounts) := by
  rcases accounts with _ | ⟨x0, rest⟩
  · simp at h0
  simp only [List.getElem?_cons_zero, Option.some.injEq] at h0
  simp [Processor.process_init_escrow, h0, hs]

theorem missing_signer_rejected_witness :
    Processor.process_init_escrow splKey rentAlways (.ok ())
        ((AccountInfo.mk k0 false k0 10 []) :: sampleAccounts.tail) 77 =
      (.error .MissingRequiredSignature,
        (AccountInfo.mk k0 false k0 10 []) :: sampleAccounts.tail) :=
  missing_signer_rejected splKey rentAlways (.ok ())
    ((AccountInfo.mk k0 false k0 10 []) :: sampleAccounts.tail) 77
    (AccountInfo.mk k0 false k0 10 []) rfl rfl

/-- C4: the escrow-record write happens strictly before the external
authority-change invocation: when that invocation fails with some error,
the error propagates unchanged while the storage account retains the
newly written initialized record (no rollback). -/
theorem record_write_precedes_invoke
    (spl : Pubkey) (rent : Nat → Nat → Bool) (accounts : List AccountInfo)
    (amount : Nat) (a0 a1 a2 a3 a4 a5 : AccountInfo) (r : Escrow) (err : ProgErr)
    (h0 : accounts[0]? = some a0) (h1 : accounts[1]? = some a1)
    (h2 : accounts[2]? = some a2) (h3 : accounts[3]? = some a3)
    (h4 : accounts[4]? = some a4) (h5 : accounts[5]? = some a5)
    (hs : a0.is_signer = true) (ho : a2.owner = spl)
    (hr : rent a3.lamports a3.data.length = true)
    (hu : Escrow.unpack_unchecked a3.data = .ok r) (hi : r.is_initialized = false) :
    Processor.process_init_escrow spl rent (.error err) accounts amount =
      (.error err,
        accounts.set 3
          { a3 with data := (Escrow.mk true a0.key a1.key a2.key amount).pack_into_slice }) := by
  obtain ⟨rest, rfl⟩ := exists_tail_of_five h0 h1 h2 h3 h4
  have h5' : rest[0]? = some a5 := by simpa using h5
  rw [Processor.process_success_path spl rent (.error err) a0 a1 a2 a3 a4 rest amount r
    hs ho hr hu hi]
  simp [h5']

theorem record_write_precedes_invoke_witness :
    Processor.process_init_escrow splKey rentAlways (.error (.External 42)) sampleAccounts 5 =
      (.error (.External 42),
        sampleAccounts.set 3
          { AccountInfo.mk k3 false k0 1000 zeros105 with
              data := (Escrow.mk true k0 k1 k2 5).pack_into_slice }) :=
  record_write_precedes_invoke splKey rentAlways sampleAccounts 5
    (AccountInfo.mk k0 true k0 10 []) (AccountInfo.mk k1 false splKey 20 [])
    (AccountInfo.mk k2 false splKey 0 []) (AccountInfo.mk k3 false k0 1000 zeros105)
    (AccountInfo.mk k4 false k0 1 []) (AccountInfo.mk splKey false k0 1 [])
    (Escrow.mk false (List.replicate 32 0) (List.replicate 32 0) (List.replicate 32 0) 0)
    (.External 42) rfl rfl rfl rfl rfl rfl rfl rfl rfl (by decide) rfl

/-- C10: with exactly five account references supplied (the token-program
reference omitted) and all four validations passing, the processor still
writes the initialized record into the escrow account and only then fails
with the missing-account error: this failure is not mutation-free. -/
theorem five_accounts_write_then_fail
    (spl : Pubkey) (rent : Nat → Nat → Bool) (inv : Except ProgErr Unit)
    (accounts : List AccountInfo) (amount : Nat)
    (a0 a1 a2 a3 a4 : AccountInfo) (r : Escrow)
    (h0 : accounts[0]? = some a0) (h1 : accounts[1]? = some a1)
    (h2 : accounts[2]? = some a2) (h3 : accounts[3]? = some a3)
    (h4 : accounts[4]? = some a4) (hlen5 : accounts.length = 5)
    (hs : a0.is_signer = true) (ho : a2.owner = spl)
    (hr : rent a3.lamports a3.data.length = true)
    (hu : Escrow.unpack_unchecked a3.data = .ok r) (hi : r.is_initialized = false) :
    Processor.process_init_escrow spl rent inv accounts amount =
      (.error .NotEnoughAccountKeys,
        accounts.set 3
          { a3 with data := (Escrow.mk true a0.key a1.key a2.key amount).pack_into_slice }) := by
  obtain ⟨rest, rfl⟩ := exists_tail_of_five h0 h1 h2 h3 h4
  have hrest : rest = [] := by
    have hl : rest.length = 0 := by
      have hc := hlen5
      simp only [List.length_cons] at hc
      omega
    exact List.length_eq_zero.mp hl
  subst hrest
  rw [Processor.process_success_path spl rent inv a0 a1 a2 a3 a4 [] amount r
    hs ho hr hu hi]
  simp

theorem five_accounts_write_then_fail_witness :
    Processor.process_init_escrow splKey rentAlways (.ok ()) (sampleAccounts.take 5) 5 =
      (.error .NotEnoughAccountKeys,
        (sampleAccounts.take 5).set 3
          { AccountInfo.mk k3 false k0 1000 zeros105 with
              data := (Escrow.mk true k0 k1 k2 5).pack_into_slice }) :=
  five_accounts_write_then_fail splKey rentAlways (.ok ()) (sampleAccounts.take 5) 5
    (AccountInfo.mk k0 true k0 10 []) (AccountInfo.mk k1 false splKey 20 [])
    (AccountInfo.mk k2 false splKey 0 []) (AccountInfo.mk k3 false k0 1000 zeros105)
    (AccountInfo.mk k4 false k0 1 [])
    (Escrow.mk false (List.replicate 32 0) (List.replicate 32 0) (List.replicate 32 0) 0)
    rfl rfl rfl rfl rfl rfl rfl rfl rfl (by decide) rfl

/-- Input identical to `sampleAccounts` except that the custody (temp
token) account at index 1 is owned by `otherKey`, which differs from the
asset-custody program's identity. -/
def badCustodyAccounts : List AccountInfo :=
  [⟨k0, true, k0, 10, []⟩,
   ⟨k1, false, otherKey, 20, []⟩,
   ⟨k2, false, splKey, 0, []⟩,
   ⟨k3, false, k0, 1000, zeros105⟩,
   ⟨k4, false, k0, 1, []⟩,
   ⟨splKey, false, k0, 1, []⟩]

theorem custody_owner_counterexample :
    badCustodyAccounts[1]?.map AccountInfo.owner = some otherKey ∧ otherKey ≠ splKey ∧
      (Processor.process_init_escrow splKey rentAlways (.ok ()) badCustodyAccounts 5).1 =
        .ok () :=
  ⟨rfl, by decide, by decide⟩

/-- C5 amended: the processor never validates the custody (temp token)
account's owner; for every input where that owner differs from the
asset-custody program's identity while every checked requirement holds and
the external invocation succeeds, the transition succeeds rather than
failing. -/
theorem custody_owner_not_checked
    (spl : Pubkey) (rent : Nat → Nat → Bool) (accounts : List AccountInfo)
    (amount : Nat) (a0 a1 a2 a3 a4 a5 : AccountInfo) (r : Escrow)
    (h0 : accounts[0]? = some a0) (h1 : accounts[1]? = some a1)
    (h2 : accounts[2]? = some a2) (h3 : accounts[3]? = some a3)
    (h4 : accounts[4]? = some a4) (h5 : accounts[5]? = some a5)
    (hs : a0.is_signer = true) (ho : a2.owner = spl)
    (hr : rent a3.lamports a3.data.length = true)
    (hu : Escrow.unpack_unchecked a3.data = .ok r) (hi : r.is_initialized = false)
    (_hW : a1.owner ≠ spl) :
    (Processor.process_init_escrow spl rent (.ok ()) accounts amount).1 = .ok () := by
  obtain ⟨rest, rfl⟩ := exists_tail_of_five h0 h1 h2 h3 h4
  have h5' : rest[0]? = some a5 := by simpa using h5
  rw [Processor.process_success_path spl rent (.ok ()) a0 a1 a2 a3 a4 rest amount r
    hs ho hr hu hi]
  simp [h5']

theorem custody_owner_not_checked_witness :
    (Processor.process_init_escrow splKey rentAlways (.ok ()) badCustodyAccounts 5).1 =
      .ok () :=
  custody_owner_not_checked splKey rentAlways badCustodyAccounts 5
    (AccountInfo.mk k0 true k0 10 []) (AccountInfo.mk k1 false otherKey 20 [])
    (AccountInfo.mk k2 false splKey 0 []) (AccountInfo.mk k3 false k0 1000 zeros105)
    (AccountInfo.mk k4 false k0 1 []) (AccountInfo.mk splKey false k0 1 [])
    (Escrow.mk false (List.replicate 32 0) (List.replicate 32 0) (List.replicate 32 0) 0)
    rfl rfl rfl rfl rfl rfl rfl rfl rfl (by decide) rfl (by decide)

/-- C2: for every escrow storage account whose stored content decodes to
an already-initialized record, the processor mutates nothing (so
`is_initialized` is never reset from true to false by this core), and —
whenever the earlier validations pass so that the check is reached — the
reported failure is `AccountAlreadyInitialized`. -/
theorem no_double_initialization
    (spl : Pubkey) (rent : Nat → Nat → Bool) (inv : Except ProgErr Unit)
    (accounts : List AccountInfo) (amount : Nat) (a3 : AccountInfo) (r : Escrow)
    (h3 : accounts[3]? = some a3)
    (hu : Escrow.unpack_unchecked a3.data = .ok r) (hi : r.is_initialized = true) :
    (Processor.process_init_escrow spl rent inv accounts amount).2 = accounts ∧
      (∀ a0 a2 a4 : AccountInfo, accounts[0]? = some a0 → a0.is_signer = true →
        accounts[2]? = some a2 → a2.owner = spl →
        accounts[4]? = some a4 → rent a3.lamports a3.data.length = true →
        (Processor.process_init_escrow spl rent inv accounts amount).1 =
          .error .AccountAlreadyInitialized) := by
  rcases accounts with _ | ⟨x0, accounts⟩
  · simp at h3
  rcases accounts with _ | ⟨x1, accounts⟩
  · simp at h3
  rcases accounts with _ | ⟨x2, accounts⟩
  · simp at h3
  rcases accounts with _ | ⟨x3, rest⟩
  · simp at h3
  simp only [List.getElem?_cons_zero, List.getElem?_cons_succ, Option.some.injEq] at h3
  subst h3
  constructor
  · by_cases hs : x0.is_signer = false
    · simp [Processor.process_init_escrow, hs]
    · have hs' := bool_true_of_not_false hs
      by_cases how : x2.owner = spl
      · cases rest with
        | nil => simp [Processor.process_init_escrow, hs', how]
        | cons x4 rest2 =>
          by_cases hre : rent x3.lamports x3.data.length = false
          · simp [Processor.process_init_escrow, hs', how, hre]
          · have hre' := bool_true_of_not_false hre
            simp [Processor.process_init_escrow, hs', how, hre', hu, hi]
      · simp [Processor.process_init_escrow, hs', how]
  · intro b0 b2 b4 h0 hbs h2 hbo h4 hre
    simp only [List.getElem?_cons_zero, List.getElem?_cons_succ, Option.some.injEq]
      at h0 h2 h4
    subst h0
    subst h2
    rcases rest with _ | ⟨x4, rest2⟩
    · simp at h4
    simp [Processor.process_init_escrow, hbs, hbo, hre, hu, hi]

/-- Input identical to `sampleAccounts` except that the escrow storage
account's data already decodes to an initialized record. -/
def initializedAccounts : List AccountInfo :=
  [⟨k0, true, k0, 10, []⟩,
   ⟨k1, false, splKey, 20, []⟩,
   ⟨k2, false, splKey, 0, []⟩,
   ⟨k3, false, k0, 1000, ones105⟩,
   ⟨k4, false, k0, 1, []⟩,
   ⟨splKey, false, k0, 1, []⟩]

theorem no_double_initialization_witness :
    (Processor.process_init_escrow splKey rentAlways (.ok ()) initializedAccounts 9).2 =
        initializedAccounts ∧
      (∀ a0 a2 a4 : AccountInfo, initializedAccounts[0]? = some a0 → a0.is_signer = true →
        initializedAccounts[2]? = some a2 → a2.owner = splKey →
        initializedAccounts[4]? = some a4 →
        rentAlways (AccountInfo.mk k3 false k0 1000 ones105).lamports
          (AccountInfo.mk k3 false k0 1000 ones105).data.length = true →
        (Processor.process_init_escrow splKey rentAlways (.ok ()) initializedAccounts 9).1 =
          .error .AccountAlreadyInitialized) :=
  no_double_initialization splKey rentAlways (.ok ()) initializedAccounts 9
    (AccountInfo.mk k3 false k0 1000 ones105)
    (Escrow.mk true (List.replicate 32 0) (List.replicate 32 0) (List.replicate 32 0) 0)
    rfl (by decide) rfl

/-- Spec-side definition, following the spec's words for the validation
sequence: among the four validations (initializer signer, receiving
account owner, rent exemption, not already initialized, in that order),
the error of the first failing one, or none when all pass. -/
def spec_first_validation_error (spl : Pubkey) (rentIsExempt : Nat → Nat → Bool)
    (a0 a2 a3 : AccountInfo) (r : Escrow) : Option ProgErr :=
  if a0.is_signer = false then some .MissingRequiredSignature
  else if a2.owner ≠ spl then some .IncorrectProgramId
  else if rentIsExempt a3.lamports a3.data.length = false then some .NotRentExempt
  else if r.is_initialized = true then some .AccountAlreadyInitialized
  else none

/-- C3: the four validations are evaluated in exactly the spec's order —
whenever the spec-side first-failing-check computation yields an error,
the processor reports exactly that error and leaves the account list (in
particular the escrow storage account's content) unchanged. -/
theorem validation_order_first_error
    (spl : Pubkey) (rent : Nat → Nat → Bool) (inv : Except ProgErr Unit)
    (accounts : List AccountInfo) (amount : Nat)
    (a0 a1 a2 a3 a4 : AccountInfo) (r : Escrow) (e : ProgErr)
    (h0 : accounts[0]? = some a0) (h1 : accounts[1]? = some a1)
    (h2 : accounts[2]? = some a2) (h3 : accounts[3]? = some a3)
    (h4 : accounts[4]? = some a4)
    (hu : Escrow.unpack_unchecked a3.data = .ok r)
    (he : spec_first_validation_error spl rent a0 a2 a3 r = some e) :
    Processor.process_init_escrow spl rent inv accounts amount = (.error e, accounts) := by
  obtain ⟨rest, rfl⟩ := exists_tail_of_five h0 h1 h2 h3 h4
  unfold spec_first_validation_error at he
  by_cases hs : a0.is_signer = false
  · rw [if_pos hs] at he
    obtain rfl : ProgErr.MissingRequiredSignature = e := by simpa using he
    simp [Processor.process_init_escrow, hs]
  · rw [if_neg hs] at he
    have hs' := bool_true_of_not_false hs
    by_cases how : a2.owner = spl
    · rw [if_neg (by simp [how])] at he
      by_cases hre : rent a3.lamports a3.data.length = false
      · rw [if_pos hre] at he
        obtain rfl : ProgErr.NotRentExempt = e := by simpa using he
        simp [Processor.process_init_escrow, hs', how, hre]
      · rw [if_neg hre] at he
        have hre' := bool_true_of_not_false hre
        by_cases hii : r.is_initialized = true
        · rw [if_pos hii] at he
          obtain rfl : ProgErr.AccountAlreadyInitialized = e := by simpa using he
          simp [Processor.process_init_escrow, hs', how, hre', hu, hii]
        · rw [if_neg hii] at he
          simp at he
    · rw [if_pos how] at he
      obtain rfl : ProgErr.IncorrectProgramId = e := by simpa using he
      simp [Processor.process_init_escrow, hs', how]

/-- Input failing several validations at once: the initializer is a
non-signer, the receiving account has the wrong owner, and the escrow
storage account is already initialized. -/
def multiFailAccounts : List AccountInfo :=
  [⟨k0, false, k0, 10, []⟩,
   ⟨k1, false, splKey, 20, []⟩,
   ⟨k2, false, otherKey, 0, []⟩,
   ⟨k3, false, k0, 1000, ones105⟩,
   ⟨k4, false, k0, 1, []⟩]

theorem validation_order_first_error_witness :
    Processor.process_init_escrow splKey rentAlways (.ok ()) multiFailAccounts 3 =
      (.error .MissingRequiredSignature, multiFailAccounts) :=
  validation_order_first_error splKey rentAlways (.ok ()) multiFailAccounts 3
    (AccountInfo.mk k0 false k0 10 []) (AccountInfo.mk k1 false splKey 20 [])
    (AccountInfo.mk k2 false otherKey 0 []) (AccountInfo.mk k3 false k0 1000 ones105)
    (AccountInfo.mk k4 false k0 1 [])
    (Escrow.mk true (List.replicate 32 0) (List.replicate 32 0) (List.replicate 32 0) 0)
    .MissingRequiredSignature rfl rfl rfl rfl rfl (by decide) rfl

end SolEscrow
